import Mathlib

/-!
Shallow embedding of the solar ROI estimator in `src/solar_roi_app.py`
(function `calculate_solar_roi`, lines 11-131, together with the
Calculate-button guard, lines 406-439).  All Python floats are modelled
as exact rationals; string-keyed dictionary lookups become total
functions into `Option ℚ` read with a default, exactly mirroring
Python's `dict.get`.
-/

namespace SolarROI

/-- The inputs the calculator reads.  Numeric fields are the three
numbers the formulas use; the three weather enums are `Option String`
so that an absent key (Python `inputs.get(...)` missing) is `none`.
`location` is carried because the Calculate-button guard tests it. -/
structure Inputs where
  location : String
  monthly_units : ℚ
  monthly_bill : ℚ
  rooftop_area : ℚ
  weather_condition : Option String
  dominant_season : Option String
  dust_pollution : Option String
deriving Repr, DecidableEq

/-- Base solar irradiance constant, line 16. -/
def base_solar_irradiance : ℚ := 5.5

/-- System efficiency constant, line 17. -/
def system_efficiency : ℚ := 0.85

/-- Panel cost per kW, line 18. -/
def panel_cost_per_kw : ℚ := 45000

/-- Installation cost as a fraction of panel cost, line 19. -/
def installation_cost_ratio : ℚ := 0.3

/-- The `weather_factors` dictionary, lines 22-29, as a partial map. -/
def weather_factors (s : String) : Option ℚ :=
  if s = "Sunny" then some 1.0
  else if s = "Mostly Sunny" then some 0.95
  else if s = "Partly Cloudy" then some 0.85
  else if s = "Cloudy" then some 0.70
  else if s = "Rainy" then some 0.60
  else if s = "Very Cloudy" then some 0.50
  else none

/-- The `season_factors` dictionary, lines 32-37, as a partial map. -/
def season_factors (s : String) : Option ℚ :=
  if s = "Summer" then some 1.15
  else if s = "Winter" then some 0.80
  else if s = "Monsoon" then some 0.65
  else if s = "Post-Monsoon" then some 0.90
  else none

/-- Line 40: `weather_factors.get(inputs.get('weather_condition', 'Sunny'), 1.0)`. -/
def weather_factor (i : Inputs) : ℚ :=
  (weather_factors (i.weather_condition.getD "Sunny")).getD 1.0

/-- Line 41: `season_factors.get(inputs.get('dominant_season', 'Summer'), 1.0)`. -/
def season_factor (i : Inputs) : ℚ :=
  (season_factors (i.dominant_season.getD "Summer")).getD 1.0

/-- Line 44: irradiance adjusted by weather and season. -/
def adjusted_irradiance (i : Inputs) : ℚ :=
  base_solar_irradiance * weather_factor i * season_factor i

/-- Lines 47-51: dust factor from `dust_pollution` (default key `'Low'`). -/
def dust_factor (i : Inputs) : ℚ :=
  if i.dust_pollution.getD "Low" = "High" then 0.85
  else if i.dust_pollution.getD "Low" = "Medium" then 0.92
  else 1.0

/-- Line 54: final (effective) irradiance. -/
def solar_irradiance (i : Inputs) : ℚ :=
  adjusted_irradiance i * dust_factor i

/-- Line 61: roof-area ceiling on system size. -/
def max_system_size (i : Inputs) : ℚ :=
  (i.rooftop_area * 0.7) / 100

/-- Lines 58 and 62 (Python reassigns `system_size`): the
consumption-derived size capped by the roof-area ceiling. -/
def system_size (i : Inputs) : ℚ :=
  min ((i.monthly_units * 12) / (solar_irradiance i * 365 * system_efficiency))
    (max_system_size i)

/-- Line 65. -/
def panel_cost (i : Inputs) : ℚ := system_size i * panel_cost_per_kw

/-- Line 66. -/
def installation_cost (i : Inputs) : ℚ := panel_cost i * installation_cost_ratio

/-- Line 67. -/
def total_investment (i : Inputs) : ℚ := panel_cost i + installation_cost i

/-- Line 70. -/
def annual_generation (i : Inputs) : ℚ :=
  system_size i * solar_irradiance i * 365 * system_efficiency

/-- Line 71. -/
def daily_average (i : Inputs) : ℚ := annual_generation i / 365

/-- Line 74: the fixed monthly seasonal weighting. -/
def base_monthly_factors : List ℚ :=
  [0.85, 0.9, 1.0, 1.1, 1.15, 1.1, 1.05, 1.0, 0.95, 0.9, 0.85, 0.8]

/-- Line 79: monsoon dampening multipliers. -/
def monsoon_adjustment : List ℚ :=
  [1.0, 1.0, 1.0, 1.0, 1.0, 0.7, 0.6, 0.6, 0.8, 1.0, 1.0, 1.0]

/-- Lines 77-82: note the monsoon test is `inputs.get('dominant_season')
== 'Monsoon'`, with no default key. -/
def monthly_gen_factors (i : Inputs) : List ℚ :=
  if i.dominant_season = some "Monsoon" then
    List.zipWith (fun a b => a * b) base_monthly_factors monsoon_adjustment
  else
    base_monthly_factors

/-- Line 84. -/
def monthly_generation (i : Inputs) : List ℚ :=
  (monthly_gen_factors i).map (fun factor => annual_generation i * factor / 12)

/-- Line 87. -/
def monthly_savings (i : Inputs) : ℚ :=
  min i.monthly_units (annual_generation i / 12) * (i.monthly_bill / i.monthly_units)

/-- Line 88. -/
def annual_savings (i : Inputs) : ℚ := monthly_savings i * 12

/-- Line 91. -/
def payback_years (i : Inputs) : ℚ :=
  if 0 < annual_savings i then total_investment i / annual_savings i else 999

/-- Lines 94-95: `[annual_savings * year for year in range(1, 21)]`. -/
def cumulative_savings (i : Inputs) : List ℚ :=
  (List.range 20).map (fun year => annual_savings i * ((year : ℚ) + 1))

/-- Line 96. -/
def total_20_year_savings (i : Inputs) : ℚ := annual_savings i * 20

/-- Line 97. -/
def net_profit (i : Inputs) : ℚ := total_20_year_savings i - total_investment i

/-- Line 100. -/
def weather_score_adjustment (i : Inputs) : ℚ := weather_factor i * 10

/-- Line 101. -/
def base_score : ℚ := 60

/-- Lines 103-111: the qualitative tier (first matching branch wins). -/
def suitability (i : Inputs) : String :=
  if payback_years i < 5 ∧ i.monthly_units * 10 < annual_generation i then
    "Excellent"
  else if payback_years i < 7 ∧ i.monthly_units * 8 < annual_generation i then
    "Good"
  else
    "Average"

/-- Lines 103-111: the numeric score attached to each tier. -/
def solar_score (i : Inputs) : ℚ :=
  if payback_years i < 5 ∧ i.monthly_units * 10 < annual_generation i then
    min 90 (base_score + 30 + weather_score_adjustment i)
  else if payback_years i < 7 ∧ i.monthly_units * 8 < annual_generation i then
    min 85 (base_score + 15 + weather_score_adjustment i)
  else
    min 75 (base_score + weather_score_adjustment i)

/-- Line 125. -/
def annual_roi (i : Inputs) : ℚ :=
  if 0 < total_investment i then annual_savings i / total_investment i * 100 else 0

/-- The dictionary returned at lines 113-131. -/
structure Results where
  suitability : String
  solar_score : ℚ
  system_size : ℚ
  total_investment : ℚ
  annual_generation : ℚ
  daily_average : ℚ
  peak_sun_hours : ℚ
  monthly_generation : List ℚ
  monthly_savings : ℚ
  annual_savings : ℚ
  payback_years : ℚ
  annual_roi : ℚ
  cumulative_savings : List ℚ
  total_20_year_savings : ℚ
  net_profit : ℚ
  weather_impact : ℚ
  effective_irradiance : ℚ
deriving Repr, DecidableEq

/-- The whole of `calculate_solar_roi` (lines 11-131).  Python raises
`ZeroDivisionError` when a divisor is zero; the two unguarded divisions
(system sizing at line 58, the savings rate at line 87) are modelled by
returning `none` when their divisor is zero, and every other division in
the function is guarded by the source itself. -/
def calculate_solar_roi (i : Inputs) : Option Results :=
  if solar_irradiance i * 365 * system_efficiency = 0 ∨ i.monthly_units = 0 then
    none
  else
    some
      { suitability := suitability i
        solar_score := solar_score i
        system_size := system_size i
        total_investment := total_investment i
        annual_generation := annual_generation i
        daily_average := daily_average i
        peak_sun_hours := solar_irradiance i
        monthly_generation := monthly_generation i
        monthly_savings := monthly_savings i
        annual_savings := annual_savings i
        payback_years := payback_years i
        annual_roi := annual_roi i
        cumulative_savings := cumulative_savings i
        total_20_year_savings := total_20_year_savings i
        net_profit := net_profit i
        weather_impact := weather_factor i
        effective_irradiance := solar_irradiance i }

/-- The Calculate-button handler, lines 406-439: it invokes
`calculate_solar_roi` only when `location and rooftop_area > 0 and
monthly_units > 0`, and otherwise shows an error and produces no
results.  The rejection is modelled as `Except.error "InvalidInput"`. -/
def estimate (i : Inputs) : Except String Results :=
  if i.location ≠ "" ∧ 0 < i.rooftop_area ∧ 0 < i.monthly_units then
    match calculate_solar_roi i with
    | some r => Except.ok r
    | none => Except.error "ZeroDivisionError"
  else
    Except.error "InvalidInput"

/-- Scenario A of the spec: 2000 units, bill 13000, 1000 sq ft,
Sunny / Summer / Low dust. -/
def inputsA : Inputs :=
  { location := "Delhi"
    monthly_units := 2000
    monthly_bill := 13000
    rooftop_area := 1000
    weather_condition := some "Sunny"
    dominant_season := some "Summer"
    dust_pollution := some "Low" }

/-- Every value the weather lookup can produce lies in `[1/2, 1]`. -/
lemma weather_factor_bounds (i : Inputs) :
    1 / 2 ≤ weather_factor i ∧ weather_factor i ≤ 1 := by
  unfold weather_factor weather_factors
  cases i.weather_condition <;>
    simp only [Option.getD_some, Option.getD_none] <;>
    split_ifs <;> simp <;> norm_num

/-- Every value the season lookup can produce lies in `[13/20, 23/20]`. -/
lemma season_factor_bounds (i : Inputs) :
    13 / 20 ≤ season_factor i ∧ season_factor i ≤ 23 / 20 := by
  unfold season_factor season_factors
  cases i.dominant_season <;>
    simp only [Option.getD_some, Option.getD_none] <;>
    split_ifs <;> simp <;> norm_num

/-- Every value the dust lookup can produce lies in `[17/20, 1]`. -/
lemma dust_factor_bounds (i : Inputs) :
    17 / 20 ≤ dust_factor i ∧ dust_factor i ≤ 1 := by
  unfold dust_factor
  split_ifs <;> norm_num

/-- The effective irradiance is strictly positive for every input. -/
lemma solar_irradiance_pos (i : Inputs) : 0 < solar_irradiance i := by
  have h1 : (0 : ℚ) < weather_factor i :=
    lt_of_lt_of_le (by norm_num) (weather_factor_bounds i).1
  have h2 : (0 : ℚ) < season_factor i :=
    lt_of_lt_of_le (by norm_num) (season_factor_bounds i).1
  have h3 : (0 : ℚ) < dust_factor i :=
    lt_of_lt_of_le (by norm_num) (dust_factor_bounds i).1
  unfold solar_irradiance adjusted_irradiance base_solar_irradiance
  exact mul_pos (mul_pos (mul_pos (by norm_num) h1) h2) h3

/-- The sizing divisor `solar_irradiance * 365 * system_efficiency` is positive. -/
lemma sizing_divisor_pos (i : Inputs) :
    0 < solar_irradiance i * 365 * system_efficiency :=
  mul_pos (mul_pos (solar_irradiance_pos i) (by norm_num))
    (by norm_num [system_efficiency])

example : solar_irradiance inputsA = 6.325 := by
  norm_num +decide [solar_irradiance, adjusted_irradiance, base_solar_irradiance, weather_factor,
    season_factor, dust_factor, weather_factors, season_factors, inputsA]

example : system_size inputsA = 7 := by
  norm_num +decide [system_size, max_system_size, solar_irradiance, adjusted_irradiance,
    base_solar_irradiance, weather_factor, season_factor, dust_factor, weather_factors,
    season_factors, system_efficiency, inputsA]

example : total_investment inputsA = 409500 := by
  norm_num +decide [total_investment, panel_cost, installation_cost, panel_cost_per_kw,
    installation_cost_ratio, system_size, max_system_size, solar_irradiance,
    adjusted_irradiance, base_solar_irradiance, weather_factor, season_factor, dust_factor,
    weather_factors, season_factors, system_efficiency, inputsA]

/-- C1: for every valid input (`monthly_units > 0`, `rooftop_area > 0`)
the returned `system_size` is the minimum of the consumption-derived
size and the roof-area ceiling `(rooftop_area × 0.7) / 100`; when the
required size exceeds the ceiling the result is exactly the ceiling, and
`total_investment`, `annual_generation` and the savings figures are all
computed from the capped size. -/
theorem system_size_capped (i : Inputs)
    (_hu : 0 < i.monthly_units) (_ha : 0 < i.rooftop_area) :
    system_size i =
      min ((i.monthly_units * 12) / (solar_irradiance i * 365 * 0.85))
        ((i.rooftop_area * 0.7) / 100)
    ∧ ((i.rooftop_area * 0.7) / 100 <
        (i.monthly_units * 12) / (solar_irradiance i * 365 * 0.85) →
        system_size i = (i.rooftop_area * 0.7) / 100)
    ∧ total_investment i = system_size i * 45000 + system_size i * 45000 * 0.3
    ∧ annual_generation i = system_size i * solar_irradiance i * 365 * 0.85
    ∧ monthly_savings i =
        min i.monthly_units (annual_generation i / 12) *
          (i.monthly_bill / i.monthly_units)
    ∧ annual_savings i = monthly_savings i * 12 := by
  refine ⟨?_, ?_, ?_, ?_, rfl, rfl⟩
  · norm_num [system_size, max_system_size, system_efficiency]
  · intro h
    have : system_size i = max_system_size i := by
      unfold system_size
      exact min_eq_right (le_of_lt (by simpa [max_system_size, system_efficiency] using h))
    simpa [max_system_size] using this
  · norm_num [total_investment, panel_cost, installation_cost, panel_cost_per_kw,
      installation_cost_ratio]
  · norm_num [annual_generation, system_efficiency]

/-- Witness for C1 at Scenario A, whose required size (≈ 12.23 kW)
exceeds the roof ceiling (7 kW): the size equals the ceiling exactly. -/
theorem system_size_capped_witness :
    system_size inputsA = (inputsA.rooftop_area * 0.7) / 100 :=
  (system_size_capped inputsA (by norm_num [inputsA]) (by norm_num [inputsA])).2.1
    (by norm_num +decide [inputsA, solar_irradiance, adjusted_irradiance,
      base_solar_irradiance, weather_factor, season_factor, dust_factor,
      weather_factors, season_factors])

/-- C3: `payback_years` is `total_investment / annual_savings` when the
annual savings are positive and exactly the sentinel `999` otherwise, in
particular when `monthly_bill = 0` makes the savings zero. -/
theorem payback_years_sentinel (i : Inputs) :
    (0 < annual_savings i → payback_years i = total_investment i / annual_savings i)
    ∧ (annual_savings i ≤ 0 → payback_years i = 999)
    ∧ (i.monthly_bill = 0 → payback_years i = 999) := by
  refine ⟨fun h => by simp [payback_years, h], fun h => ?_, fun h => ?_⟩
  · rw [payback_years, if_neg (not_lt.mpr h)]
  · have hz : annual_savings i = 0 := by
      simp [annual_savings, monthly_savings, h]
    rw [payback_years, if_neg (by rw [hz]; exact lt_irrefl 0)]

/-- Witness for C3 at Scenario A, where the annual savings are positive,
so the payback is the true quotient, not the sentinel. -/
theorem payback_years_sentinel_witness :
    payback_years inputsA = total_investment inputsA / annual_savings inputsA :=
  (payback_years_sentinel inputsA).1
    (by norm_num +decide [inputsA, annual_savings, monthly_savings, annual_generation,
      system_size, max_system_size, solar_irradiance, adjusted_irradiance,
      base_solar_irradiance, weather_factor, season_factor, dust_factor,
      weather_factors, season_factors, system_efficiency])

/-- C4: for every valid input the monthly savings are the smaller of
consumption and average monthly generation times the effective rate,
the annual savings are twelve times that, and the monthly savings never
exceed the monthly bill. -/
theorem monthly_savings_cap (i : Inputs)
    (hu : 0 < i.monthly_units) (hb : 0 ≤ i.monthly_bill) :
    monthly_savings i =
      min i.monthly_units (annual_generation i / 12) *
        (i.monthly_bill / i.monthly_units)
    ∧ annual_savings i = 12 * monthly_savings i
    ∧ monthly_savings i ≤ i.monthly_bill := by
  refine ⟨rfl, by rw [annual_savings, mul_comm], ?_⟩
  have hrate : 0 ≤ i.monthly_bill / i.monthly_units := div_nonneg hb hu.le
  calc monthly_savings i
      ≤ i.monthly_units * (i.monthly_bill / i.monthly_units) :=
        mul_le_mul_of_nonneg_right (min_le_left _ _) hrate
    _ = i.monthly_bill := by
        rw [mul_comm]
        exact div_mul_cancel₀ _ hu.ne'

/-- Witness for C4 at Scenario A: the monthly savings stay at or below
the monthly bill of 13000. -/
theorem monthly_savings_cap_witness :
    monthly_savings inputsA ≤ inputsA.monthly_bill :=
  (monthly_savings_cap inputsA (by norm_num [inputsA]) (by norm_num [inputsA])).2.2

/-- C6: for every input the total investment is `system_size × 45000 ×
1.30`, and on Scenario A the system size is roof-capped to exactly 7 kW
with a total investment of exactly 409500. -/
theorem total_investment_formula :
    (∀ i : Inputs, total_investment i = system_size i * 45000 * 1.3)
    ∧ system_size inputsA = 7
    ∧ total_investment inputsA = 409500 := by
  refine ⟨fun i => ?_, ?_, ?_⟩
  · simp only [total_investment, panel_cost, installation_cost, panel_cost_per_kw,
      installation_cost_ratio]
    ring
  · norm_num +decide [inputsA, system_size, max_system_size, solar_irradiance,
      adjusted_irradiance, base_solar_irradiance, weather_factor, season_factor,
      dust_factor, weather_factors, season_factors, system_efficiency]
  · norm_num +decide [inputsA, total_investment, panel_cost, installation_cost,
      panel_cost_per_kw, installation_cost_ratio, system_size, max_system_size,
      solar_irradiance, adjusted_irradiance, base_solar_irradiance, weather_factor,
      season_factor, dust_factor, weather_factors, season_factors, system_efficiency]

/-- C10: `annual_roi` is `(annual_savings / total_investment) × 100`
when the investment is positive and `0` otherwise; on the valid domain
(`monthly_units > 0`, `rooftop_area > 0`) the investment is positive, so
the quotient form always applies there. -/
theorem annual_roi_def (i : Inputs) :
    (0 < total_investment i →
      annual_roi i = annual_savings i / total_investment i * 100)
    ∧ (total_investment i ≤ 0 → annual_roi i = 0)
    ∧ (0 < i.monthly_units → 0 < i.rooftop_area →
        0 < total_investment i ∧
        annual_roi i = 100 * annual_savings i / total_investment i) := by
  refine ⟨fun h => by rw [annual_roi, if_pos h],
    fun h => by rw [annual_roi, if_neg (not_lt.mpr h)], fun hu ha => ?_⟩
  have hsize : 0 < system_size i := by
    refine lt_min ?_ ?_
    · exact div_pos (by positivity) (sizing_divisor_pos i)
    · unfold max_system_size
      positivity
  have hti : 0 < total_investment i := by
    simp only [total_investment, panel_cost, installation_cost, panel_cost_per_kw,
      installation_cost_ratio]
    nlinarith
  refine ⟨hti, ?_⟩
  rw [annual_roi, if_pos hti]
  ring

/-- Witness for C10 at Scenario A: the investment is positive and the
ROI takes the quotient form. -/
theorem annual_roi_def_witness :
    0 < total_investment inputsA ∧
      annual_roi inputsA =
        100 * annual_savings inputsA / total_investment inputsA :=
  (annual_roi_def inputsA).2.2 (by norm_num [inputsA]) (by norm_num [inputsA])

/-- C5: whenever the weather factor lies in `[1/2, 1]` (which holds for
every input), the solar score lies in `[0, 100]`, is at most 90 on the
Excellent branch, at most 85 on the Good branch, and at most 75 on the
Average branch; the lower bound 0 needs no extra assumption on the
numeric inputs. -/
theorem solar_score_bounds (i : Inputs)
    (h : 1 / 2 ≤ weather_factor i ∧ weather_factor i ≤ 1) :
    (0 ≤ solar_score i ∧ solar_score i ≤ 100)
    ∧ (suitability i = "Excellent" → solar_score i ≤ 90)
    ∧ (suitability i = "Good" → solar_score i ≤ 85)
    ∧ (suitability i = "Average" → solar_score i ≤ 75) := by
  obtain ⟨h1, h2⟩ := h
  unfold solar_score suitability weather_score_adjustment base_score
  split_ifs with hA hB
  · exact ⟨⟨le_min (by norm_num) (by linarith), le_trans (min_le_left _ _) (by norm_num)⟩,
      fun _ => min_le_left _ _,
      fun hc => absurd hc (by decide),
      fun hc => absurd hc (by decide)⟩
  · exact ⟨⟨le_min (by norm_num) (by linarith), le_trans (min_le_left _ _) (by norm_num)⟩,
      fun hc => absurd hc (by decide),
      fun _ => min_le_left _ _,
      fun hc => absurd hc (by decide)⟩
  · exact ⟨⟨le_min (by norm_num) (by linarith), le_trans (min_le_left _ _) (by norm_num)⟩,
      fun hc => absurd hc (by decide),
      fun hc => absurd hc (by decide),
      fun _ => min_le_left _ _⟩

/-- Witness for C5 at Scenario A (weather factor exactly 1): the score
lies within `[0, 100]`. -/
theorem solar_score_bounds_witness :
    0 ≤ solar_score inputsA ∧ solar_score inputsA ≤ 100 :=
  (solar_score_bounds inputsA
    (by norm_num +decide [inputsA, weather_factor, weather_factors])).1

/-- C7: the monthly generation is `annual_generation × weight / 12` with
the fixed January-to-December weights, where a Monsoon dominant season
first multiplies the June-September weights by `0.70, 0.60, 0.60, 0.80`;
the weights are not re-normalized, so under Monsoon (with positive
annual generation) the twelve months sum to strictly less than the
annual figure. -/
theorem monthly_generation_weights (i : Inputs) :
    monthly_generation i =
      (if i.dominant_season = some "Monsoon" then
        [0.85, 0.90, 1.00, 1.10, 1.15, 1.10 * 0.70, 1.05 * 0.60, 1.00 * 0.60,
          0.95 * 0.80, 0.90, 0.85, 0.80]
      else
        [0.85, 0.90, 1.00, 1.10, 1.15, 1.10, 1.05, 1.00, 0.95, 0.90, 0.85,
          0.80]).map (fun w => annual_generation i * w / 12)
    ∧ (i.dominant_season = some "Monsoon" → 0 < annual_generation i →
        (monthly_generation i).sum < annual_generation i) := by
  constructor
  · unfold monthly_generation monthly_gen_factors base_monthly_factors monsoon_adjustment
    split_ifs with h
    · simp only [List.zipWith_cons_cons, List.zipWith_nil_right, List.map_cons,
        List.map_nil, List.cons.injEq, and_true]
      norm_num
    · norm_num
  · intro hm hag
    have hsum : (monthly_generation i).sum = annual_generation i * (1031 / 1200) := by
      unfold monthly_generation monthly_gen_factors base_monthly_factors monsoon_adjustment
      rw [if_pos hm]
      simp only [List.zipWith_cons_cons, List.zipWith_nil_right, List.map_cons,
        List.map_nil, List.sum_cons, List.sum_nil]
      ring_nf
    rw [hsum]
    linarith

/-- Witness for C7 under a Monsoon season with positive generation
(Scenario B of the spec: Very Cloudy, Monsoon): the monthly values sum
to strictly less than the annual generation. -/
theorem monthly_generation_weights_witness :
    (monthly_generation
        { inputsA with
            weather_condition := some "Very Cloudy"
            dominant_season := some "Monsoon" }).sum <
      annual_generation
        { inputsA with
            weather_condition := some "Very Cloudy"
            dominant_season := some "Monsoon" } :=
  (monthly_generation_weights _).2 rfl
    (by norm_num +decide [inputsA, annual_generation, system_size, max_system_size,
      solar_irradiance, adjusted_irradiance, base_solar_irradiance, weather_factor,
      season_factor, dust_factor, weather_factors, season_factors, system_efficiency])

/-- Replacing the rooftop area leaves the irradiance untouched. -/
lemma system_size_update_area (i : Inputs) (a : ℚ) :
    system_size { i with rooftop_area := a } =
      min (i.monthly_units * 12 / (solar_irradiance i * 365 * system_efficiency))
        ((a * 0.7) / 100) := rfl

/-- Replacing the weather condition touches only the weather factor. -/
lemma solar_irradiance_update_weather (i : Inputs) (w : Option String) :
    solar_irradiance { i with weather_condition := w } =
      base_solar_irradiance * weather_factor { i with weather_condition := w } *
        season_factor i * dust_factor i := rfl

/-- The annual generation collapses to the minimum of the demand and
what the roof ceiling can deliver; this is the form the monotonicity
argument uses. -/
lemma annual_generation_min_form (i : Inputs) :
    annual_generation i =
      min (i.monthly_units * 12)
        (max_system_size i * (solar_irradiance i * 365 * system_efficiency)) := by
  have hD := sizing_divisor_pos i
  have hx : ∀ x : ℚ, x * solar_irradiance i * 365 * system_efficiency =
      x * (solar_irradiance i * 365 * system_efficiency) := fun x => by ring
  unfold annual_generation system_size
  rw [hx, min_mul_of_nonneg _ _ hD.le,
    div_mul_cancel₀ _ hD.ne']

/-- C8: holding everything else fixed, a larger rooftop area never
shrinks the system size, and a weather condition with a larger weather
factor never shrinks the annual generation (for a nonnegative roof
area). -/
theorem monotonicity (i : Inputs) :
    (∀ a₁ a₂ : ℚ, a₁ ≤ a₂ →
      system_size { i with rooftop_area := a₁ } ≤
        system_size { i with rooftop_area := a₂ })
    ∧ (∀ w₁ w₂ : Option String, 0 ≤ i.rooftop_area →
        weather_factor { i with weather_condition := w₁ } ≤
          weather_factor { i with weather_condition := w₂ } →
        annual_generation { i with weather_condition := w₁ } ≤
          annual_generation { i with weather_condition := w₂ }) := by
  constructor
  · intro a₁ a₂ hle
    rw [system_size_update_area, system_size_update_area]
    exact min_le_min le_rfl (by linarith)
  · intro w₁ w₂ ha hw
    have hsf : (0 : ℚ) < season_factor i :=
      lt_of_lt_of_le (by norm_num) (season_factor_bounds i).1
    have hdf : (0 : ℚ) < dust_factor i :=
      lt_of_lt_of_le (by norm_num) (dust_factor_bounds i).1
    have hirr : solar_irradiance { i with weather_condition := w₁ } ≤
        solar_irradiance { i with weather_condition := w₂ } := by
      rw [solar_irradiance_update_weather, solar_irradiance_update_weather]
      have hb : (0 : ℚ) ≤ base_solar_irradiance := by norm_num [base_solar_irradiance]
      exact mul_le_mul_of_nonneg_right
        (mul_le_mul_of_nonneg_right (mul_le_mul_of_nonneg_left hw hb) hsf.le) hdf.le
    have hcap : (0 : ℚ) ≤ max_system_size { i with weather_condition := w₁ } := by
      unfold max_system_size
      positivity
    rw [annual_generation_min_form, annual_generation_min_form]
    refine min_le_min le_rfl ?_
    have hD : solar_irradiance { i with weather_condition := w₁ } * 365 *
        system_efficiency ≤
        solar_irradiance { i with weather_condition := w₂ } * 365 *
          system_efficiency :=
      mul_le_mul_of_nonneg_right (mul_le_mul_of_nonneg_right hirr (by norm_num))
        (by norm_num [system_efficiency])
    exact mul_le_mul_of_nonneg_left hD hcap

/-- Witness for C8: growing Scenario A's roof from 500 to 1000 sq ft
does not shrink the system size, and moving Very Cloudy to Sunny does
not shrink the annual generation. -/
theorem monotonicity_witness :
    (system_size { inputsA with rooftop_area := 500 } ≤
      system_size { inputsA with rooftop_area := 1000 })
    ∧ (annual_generation { inputsA with weather_condition := some "Very Cloudy" } ≤
        annual_generation { inputsA with weather_condition := some "Sunny" }) :=
  ⟨(monotonicity inputsA).1 500 1000 (by norm_num),
    (monotonicity inputsA).2 (some "Very Cloudy") (some "Sunny")
      (by norm_num [inputsA])
      (by norm_num +decide [inputsA, weather_factor, weather_factors])⟩

/-- Scenario A with a negative monthly bill; the other fields pass the
Calculate-button guard. -/
def inputsNegBill : Inputs := { inputsA with monthly_bill := -1 }

/-- Counterexample to C2: a call with `monthly_bill < 0` is not rejected
— the handler checks only location, rooftop area and monthly units, so
the estimator runs and returns a complete Results record. -/
theorem estimate_negative_bill_accepted :
    inputsNegBill.monthly_bill < 0 ∧
      ∃ r, estimate inputsNegBill = Except.ok r := by
  have h1 : inputsNegBill.location ≠ "" ∧ 0 < inputsNegBill.rooftop_area ∧
      0 < inputsNegBill.monthly_units :=
    ⟨by decide, by norm_num [inputsNegBill, inputsA], by norm_num [inputsNegBill, inputsA]⟩
  have h2 : ¬(solar_irradiance inputsNegBill * 365 * system_efficiency = 0 ∨
      inputsNegBill.monthly_units = 0) := by
    push_neg
    exact ⟨(sizing_divisor_pos _).ne', by norm_num [inputsNegBill, inputsA]⟩
  refine ⟨by norm_num [inputsNegBill, inputsA], ?_⟩
  unfold estimate
  rw [if_pos h1]
  unfold calculate_solar_roi
  rw [if_neg h2]
  exact ⟨_, rfl⟩

/-- C2 as amended: the boundary guard rejects `monthly_units ≤ 0` and
`rooftop_area ≤ 0` with an InvalidInput error, but does not check
`monthly_bill < 0`; every input passing the guard (non-empty location,
positive area and units) never fails and yields a complete Results
record. -/
theorem estimate_contract (i : Inputs) :
    (i.monthly_units ≤ 0 ∨ i.rooftop_area ≤ 0 →
      estimate i = Except.error "InvalidInput")
    ∧ (i.location ≠ "" → 0 < i.rooftop_area → 0 < i.monthly_units →
        ∃ r, estimate i = Except.ok r) := by
  constructor
  · intro h
    unfold estimate
    rw [if_neg]
    intro ⟨_, ha, hu⟩
    rcases h with h | h
    · exact absurd hu (not_lt.mpr h)
    · exact absurd ha (not_lt.mpr h)
  · intro hl ha hu
    have h2 : ¬(solar_irradiance i * 365 * system_efficiency = 0 ∨
        i.monthly_units = 0) := by
      push_neg
      exact ⟨(sizing_divisor_pos _).ne', hu.ne'⟩
    unfold estimate
    rw [if_pos ⟨hl, ha, hu⟩]
    unfold calculate_solar_roi
    rw [if_neg h2]
    exact ⟨_, rfl⟩

/-- Witness for the amended C2: Scenario A passes the guard and gets a
Results record; zeroing out its rooftop area gets the InvalidInput
rejection. -/
theorem estimate_contract_witness :
    (∃ r, estimate inputsA = Except.ok r) ∧
      estimate { inputsA with rooftop_area := 0 } = Except.error "InvalidInput" :=
  ⟨(estimate_contract inputsA).2 (by decide) (by norm_num [inputsA])
      (by norm_num [inputsA]),
    (estimate_contract { inputsA with rooftop_area := 0 }).1
      (Or.inr (by norm_num [inputsA]))⟩

/-- The weather factor exactly as claim C9 states it: the six named
conditions mapped to their values, `1.0` for an unknown or absent
condition. -/
def weather_factor_stated (w : Option String) : ℚ :=
  if w = some "Sunny" then 1.0
  else if w = some "Mostly Sunny" then 0.95
  else if w = some "Partly Cloudy" then 0.85
  else if w = some "Cloudy" then 0.70
  else if w = some "Rainy" then 0.60
  else if w = some "Very Cloudy" then 0.50
  else 1.0

/-- The season factor exactly as claim C9 states it: `1.0` by default,
for an unknown and for an absent dominant season alike. -/
def season_factor_claimed (s : Option String) : ℚ :=
  if s = some "Summer" then 1.15
  else if s = some "Winter" then 0.80
  else if s = some "Monsoon" then 0.65
  else if s = some "Post-Monsoon" then 0.90
  else 1.0

/-- The season factor the code implements: an absent dominant season
falls back to the default dictionary key `Summer`, hence factor 1.15;
only an unrecognized value present in the input yields 1.0. -/
def season_factor_amended (s : Option String) : ℚ :=
  if s = none then 1.15
  else if s = some "Summer" then 1.15
  else if s = some "Winter" then 0.80
  else if s = some "Monsoon" then 0.65
  else if s = some "Post-Monsoon" then 0.90
  else 1.0

/-- The dust factor exactly as claim C9 states it. -/
def dust_factor_stated (d : Option String) : ℚ :=
  if d = some "High" then 0.85
  else if d = some "Medium" then 0.92
  else 1.0

/-- Scenario A with the dominant season left absent. -/
def inputsNoSeason : Inputs := { inputsA with dominant_season := none }

/-- Counterexample to C9: with an absent `dominant_season` the code
falls back to the `Summer` key, so the effective irradiance is
`5.5 × 1.15 = 6.325` and not the `5.5 × 1.0` the claim's default of
1.00 would give. -/
theorem effective_irradiance_absent_season :
    solar_irradiance inputsNoSeason ≠
      5.5 * weather_factor_stated inputsNoSeason.weather_condition *
        season_factor_claimed inputsNoSeason.dominant_season *
        dust_factor_stated inputsNoSeason.dust_pollution := by
  norm_num +decide [inputsNoSeason, inputsA, solar_irradiance, adjusted_irradiance,
    base_solar_irradiance, weather_factor, season_factor, dust_factor, weather_factors,
    season_factors, weather_factor_stated, season_factor_claimed, dust_factor_stated]

/-- The code's weather factor agrees with the claim's enumeration. -/
lemma weather_factor_eq_stated (i : Inputs) :
    weather_factor i = weather_factor_stated i.weather_condition := by
  unfold weather_factor weather_factors weather_factor_stated
  cases h : i.weather_condition with
  | none => norm_num +decide
  | some s =>
    simp only [Option.getD_some, Option.some.injEq]
    split_ifs <;> norm_num

/-- The code's season factor agrees with the amended enumeration. -/
lemma season_factor_eq_amended (i : Inputs) :
    season_factor i = season_factor_amended i.dominant_season := by
  unfold season_factor season_factors season_factor_amended
  cases h : i.dominant_season with
  | none => norm_num +decide
  | some s =>
    rw [if_neg (Option.some_ne_none s)]
    simp only [Option.getD_some, Option.some.injEq]
    split_ifs <;> norm_num

/-- The code's dust factor agrees with the claim's enumeration. -/
lemma dust_factor_eq_stated (i : Inputs) :
    dust_factor i = dust_factor_stated i.dust_pollution := by
  unfold dust_factor dust_factor_stated
  cases h : i.dust_pollution with
  | none => norm_num +decide
  | some s =>
    simp only [Option.getD_some, Option.some.injEq]

/-- C9 as amended: the effective irradiance is `5.5 ×
weather_factor × season_factor × dust_factor` with the stated values,
except that an absent `dominant_season` takes the Summer default 1.15
rather than 1.00; no unrecognized or absent enum value causes an error —
the calculator still returns a complete result whenever
`monthly_units ≠ 0`. -/
theorem effective_irradiance_factors (i : Inputs) :
    solar_irradiance i =
      5.5 * weather_factor_stated i.weather_condition *
        season_factor_amended i.dominant_season *
        dust_factor_stated i.dust_pollution
    ∧ (i.monthly_units ≠ 0 → (calculate_solar_roi i).isSome = true) := by
  constructor
  · unfold solar_irradiance adjusted_irradiance base_solar_irradiance
    rw [weather_factor_eq_stated, season_factor_eq_amended, dust_factor_eq_stated]
  · intro hu
    unfold calculate_solar_roi
    rw [if_neg (by push_neg; exact ⟨(sizing_divisor_pos i).ne', hu⟩)]
    rfl

/-- Witness for the amended C9 at the absent-season input: the factor
product holds (with 1.15 for the absent season) and the calculator
still returns a result. -/
theorem effective_irradiance_factors_witness :
    solar_irradiance inputsNoSeason =
      5.5 * weather_factor_stated inputsNoSeason.weather_condition *
        season_factor_amended inputsNoSeason.dominant_season *
        dust_factor_stated inputsNoSeason.dust_pollution
    ∧ (calculate_solar_roi inputsNoSeason).isSome = true :=
  ⟨(effective_irradiance_factors inputsNoSeason).1,
    (effective_irradiance_factors inputsNoSeason).2
      (by norm_num [inputsNoSeason, inputsA])⟩

end SolarROI
